import Mathlib

/-!
Shallow embedding of the goGeo HTTP gateway (src/main.go).

The program is a small HTTP server with three routes, one logging
middleware, a geocode handler backed by a local JSON fixture, and a
signal-driven graceful shutdown with a 30 second deadline.

Modelling conventions:
* JSON documents are the inductive `Json`; a raw provider payload is an
  `Option Json` where `none` stands for bytes that are not valid JSON
  (unparsable input). `json.Unmarshal` and `json.Marshal` from the Go
  standard library are embedded at the JSON-value level (`unmarshal`,
  `result.toJson`), following the documented encoding/json semantics:
  missing keys keep the zero value without error, `null` keeps the value
  without error, a type mismatch flags an error while decoding of the
  remaining fields continues, and on a malformed document the target is
  left at its zero value with an error flagged.
* A handler run is a trace of observable effects (`Event`) plus a `Bool`
  that is `true` when the handler finished normally and `false` when it
  panicked; the trace holds the effects performed up to the panic point.
* Route matching by gorilla/mux (an external dependency) is embedded at
  its contract level: a `Request` carries the match outcome (`Route`)
  with the captured path variables, alongside the raw method and URI.
  mux runs `Use` middleware only on matched routes; the unmatched case
  dispatches straight to the not-found handler.
* `MockService` reads the file data/LA.json, which is not part of the
  sources; the geocode pipeline is therefore parameterised by the raw
  fixture payload `mock : Option Json`, fixed for the whole process run.
-/

namespace GoGeo

/-- JSON values, the shape produced by the external geocoding provider
and consumed by encoding/json. Numbers are rationals, standing for the
decimal literals of a JSON document. -/
inductive Json where
  | null
  | bool (b : Bool)
  | num (q : Rat)
  | str (s : String)
  | arr (elems : List Json)
  | obj (fields : List (String × Json))

/-- Lookup of a key in a JSON object, last occurrence wins, as in
encoding/json where a later duplicate key overwrites an earlier one. -/
def lookupField (fields : List (String × Json)) (key : String) : Option Json :=
  match fields with
  | [] => none
  | (k, v) :: rest =>
      match lookupField rest key with
      | some v2 => some v2
      | none => if k = key then some v else none

/-- Go struct `location` (src/main.go:32-35): lat/lng coordinates. -/
structure location where
  Lat : Rat
  Lng : Rat

/-- Go struct `geometry` (src/main.go:27-30). -/
structure geometry where
  Location : location
  LocationType : String

/-- Go struct `result` (src/main.go:22-25). -/
structure result where
  Geometry : geometry
  Address : String

/-- Go struct `response` (src/main.go:17-20): the provider payload. -/
structure response where
  Results : List result
  Status : String

/-- Zero value of `location`, as Go initialises it. -/
def zeroLocation : location := ⟨0, 0⟩

/-- Zero value of `geometry`. -/
def zeroGeometry : geometry := ⟨zeroLocation, ""⟩

/-- Zero value of `result`. -/
def zeroResult : result := ⟨zeroGeometry, ""⟩

/-- Zero value of `response`: nil slice and empty string. -/
def zeroResponse : response := ⟨[], ""⟩

/-- Decoding of a float64 field: missing key or `null` keeps the zero
value with no error, a number is taken, anything else is a type error. -/
def decodeNum : Option Json → Rat × Bool
  | none => (0, false)
  | some Json.null => (0, false)
  | some (Json.num q) => (q, false)
  | some _ => (0, true)

/-- Decoding of a string field, same policy as `decodeNum`. -/
def decodeStr : Option Json → String × Bool
  | none => ("", false)
  | some Json.null => ("", false)
  | some (Json.str s) => (s, false)
  | some _ => ("", true)

/-- Decoding of the `location` struct from an optional JSON field. -/
def decodeLocation (oj : Option Json) : location × Bool :=
  match oj with
  | none => (zeroLocation, false)
  | some Json.null => (zeroLocation, false)
  | some (Json.obj fields) =>
      let la := decodeNum (lookupField fields "lat")
      let ln := decodeNum (lookupField fields "lng")
      (⟨la.1, ln.1⟩, la.2 || ln.2)
  | some _ => (zeroLocation, true)

/-- Decoding of the `geometry` struct from an optional JSON field. -/
def decodeGeometry (oj : Option Json) : geometry × Bool :=
  match oj with
  | none => (zeroGeometry, false)
  | some Json.null => (zeroGeometry, false)
  | some (Json.obj fields) =>
      let lo := decodeLocation (lookupField fields "location")
      let lt := decodeStr (lookupField fields "location_type")
      (⟨lo.1, lt.1⟩, lo.2 || lt.2)
  | some _ => (zeroGeometry, true)

/-- Decoding of one `result` element. -/
def decodeResult (oj : Option Json) : result × Bool :=
  match oj with
  | none => (zeroResult, false)
  | some Json.null => (zeroResult, false)
  | some (Json.obj fields) =>
      let ge := decodeGeometry (lookupField fields "geometry")
      let ad := decodeStr (lookupField fields "formatted_address")
      (⟨ge.1, ad.1⟩, ge.2 || ad.2)
  | some _ => (zeroResult, true)

/-- Decoding of the `results` slice: a JSON array decodes elementwise,
missing or `null` stays the nil slice. -/
def decodeResultList (oj : Option Json) : List result × Bool :=
  match oj with
  | none => ([], false)
  | some Json.null => ([], false)
  | some (Json.arr xs) =>
      let rs := xs.map (fun j => decodeResult (some j))
      (rs.map (fun p => p.1), rs.any (fun p => p.2))
  | some _ => ([], true)

/-- Decoding of the top-level `response` struct from a JSON document. -/
def decodeResponse (j : Json) : response × Bool :=
  match j with
  | Json.null => (zeroResponse, false)
  | Json.obj fields =>
      let rs := decodeResultList (lookupField fields "results")
      let st := decodeStr (lookupField fields "status")
      (⟨rs.1, st.1⟩, rs.2 || st.2)
  | _ => (zeroResponse, true)

/-- Embedding of `json.Unmarshal(raw, &resp)` in `GeocodeHandler`
(src/main.go:134): `none` (unparsable bytes) leaves the zero value and
reports an error; a JSON document is decoded by `decodeResponse`. The
second component is `true` exactly when Unmarshal returned an error. -/
def unmarshal (raw : Option Json) : response × Bool :=
  match raw with
  | none => (zeroResponse, true)
  | some j => decodeResponse j

/-- Embedding of `json.Marshal` on `location`: object keys follow the
struct tags in field order (src/main.go:32-35). -/
def location.toJson (l : location) : Json :=
  Json.obj [("lat", Json.num l.Lat), ("lng", Json.num l.Lng)]

/-- Embedding of `json.Marshal` on `geometry` (src/main.go:27-30). -/
def geometry.toJson (g : geometry) : Json :=
  Json.obj [("location", g.Location.toJson), ("location_type", Json.str g.LocationType)]

/-- Embedding of `json.Marshal` on `result` (src/main.go:22-25): the
serialization written by the geocode handler. Marshal of these types
never fails, so the discarded error of src/main.go:140 is always nil. -/
def result.toJson (r : result) : Json :=
  Json.obj [("geometry", r.Geometry.toJson), ("formatted_address", Json.str r.Address)]

/-- Body chunk written to the response: plain text or a JSON document. -/
inductive Body where
  | text (s : String)
  | json (j : Json)

/-- Observable effects of the program: the middleware log line carrying
method and URI, informational and error log lines, response header and
body writes, and a process-exit effect (never performed by the source,
recorded so that its absence is provable). -/
inductive Event where
  | logLine (method uri : String)
  | infoLog (msg : String)
  | errLog (msg : String)
  | writeHeader (status : Nat)
  | write (b : Body)
  | exitProcess

/-- Status committed to the client: the first `writeHeader` of the
trace, as net/http ignores every later call. -/
def committedStatus : List Event → Option Nat
  | [] => none
  | Event.writeHeader s :: _ => some s
  | _ :: es => committedStatus es

/-- Body chunks written, in order. -/
def bodyWrites : List Event → List Body
  | [] => []
  | Event.write b :: es => b :: bodyWrites es
  | _ :: es => bodyWrites es

/-- Number of middleware log lines in a trace. -/
def countLogLines : List Event → Nat
  | [] => 0
  | Event.logLine _ _ :: es => countLogLines es + 1
  | _ :: es => countLogLines es

/-- Outcome of the mux route match for the three registered patterns
(src/main.go:84-86), with captured path variables, or no match. -/
inductive Route where
  | home
  | geocode (address : String)
  | geoloc (lat lng : String)
  | notFound

/-- An inbound request: raw method and request URI as seen by the
middleware, and the route-match outcome produced by mux. -/
structure Request where
  method : String
  requestURI : String
  route : Route

/-- Fixed liveness body of `HomeHandler` (src/main.go:127). -/
def HomeBody : String := "Server is up and running!\n"

/-- Embedding of `HomeHandler` (src/main.go:125-128): 200 and the fixed
liveness string. -/
def HomeHandler : List Event × Bool :=
  ([Event.writeHeader 200, Event.write (Body.text HomeBody)], true)

/-- Log events of the Unmarshal error branch of `GeocodeHandler`
(src/main.go:135-137): one error log line when Unmarshal failed. -/
def unmarshalLog (raw : Option Json) : List Event :=
  if (unmarshal raw).2 then [Event.errLog "Error on Unmarshal1: "] else []

/-- Embedding of `GeocodeHandler` (src/main.go:130-142). The provider
call is `MockService()`, whose payload (read from the file data/LA.json,
not part of the sources) is the parameter `raw`; the address path
variable is not read (the call with it is commented out). The handler
unmarshals, logs a possible Unmarshal error, writes header 200, then
marshals `resp.Results[0]` and writes it; with an empty `Results` slice
the index panics after the header was written: the trace stops there and
the outcome flag is `false`. -/
def GeocodeHandler (raw : Option Json) : List Event × Bool :=
  match (unmarshal raw).1.Results with
  | [] => (unmarshalLog raw ++ [Event.writeHeader 200], false)
  | r :: _ =>
      (unmarshalLog raw ++ [Event.writeHeader 200, Event.write (Body.json r.toJson)], true)

/-- Embedding of `GeolocHandler` (src/main.go:144-148): 200 and
`fmt.Sprintf` of the mux vars map, which Go prints with its keys in
sorted order, hence `map[lat:<lat> lng:<lng>]` and a newline. -/
def GeolocHandler (lat lng : String) : List Event × Bool :=
  ([Event.writeHeader 200,
    Event.write (Body.text ("map[lat:" ++ lat ++ " lng:" ++ lng ++ "]\n"))], true)

/-- Default not-found handler of mux/net/http for unmatched paths. -/
def NotFoundHandler : List Event × Bool :=
  ([Event.writeHeader 404, Event.write (Body.text "404 page not found\n")], true)

/-- Dispatch of a matched route to its handler (src/main.go:84-86). -/
def router (mock : Option Json) (req : Request) : List Event × Bool :=
  match req.route with
  | Route.home => HomeHandler
  | Route.geocode _ => GeocodeHandler mock
  | Route.geoloc lat lng => GeolocHandler lat lng
  | Route.notFound => NotFoundHandler

/-- Embedding of `LoggingMiddleware` (src/main.go:116-123): log one line
with method and request URI, then invoke the next handler unchanged. -/
def LoggingMiddleware (next : Request → List Event × Bool) (req : Request) :
    List Event × Bool :=
  let out := next req
  (Event.logLine req.method req.requestURI :: out.1, out.2)

/-- The served application: mux dispatch with `router.Use` middleware
(src/main.go:88). mux applies `Use` middleware to matched routes only;
an unmatched path goes straight to the not-found handler. -/
def app (mock : Option Json) (req : Request) : List Event × Bool :=
  match req.route with
  | Route.notFound => NotFoundHandler
  | _ => LoggingMiddleware (router mock) req

/-- Embedding of `DefaultENV` (src/main.go:47-52) over an explicit
process environment `env : String → Option String` standing for
`os.LookupEnv`. -/
def DefaultENV (env : String → Option String) (key fallback : String) : String :=
  match env key with
  | some value => value
  | none => fallback

/-- Embedding of the `bindAddress` package variable (src/main.go:44). -/
def bindAddress (env : String → Option String) : String :=
  DefaultENV env "BIND_ADDRESS" ":5000"

/-- Embedding of the `googleAPIKey` package variable (src/main.go:45). -/
def googleAPIKey (env : String → Option String) : String :=
  DefaultENV env "GOOGLE_API_KEY" ""

/-- Constant `serviceParamNameLatLng` (src/main.go:40). -/
def serviceParamNameLatLng : String := "latlng"

/-- Constant `serviceParamNameAddress` (src/main.go:41). -/
def serviceParamNameAddress : String := "address"

/-- Embedding of `geoServiceUrl` (src/main.go:54-57). -/
def geoServiceUrl (apiKey paramName paramValue : String) : String :=
  "https://maps.googleapis.com/maps/api/geocode/json?" ++ paramName ++ "="
    ++ paramValue ++ "&key=" ++ apiKey

/-- Outcome of `http.Get` as seen by `callExternalService`: either a
non-nil error, in which case the returned response pointer is nil, or a
response with some status code and a body (the body bytes are again an
`Option Json`, `none` for bytes that are not valid JSON). -/
inductive GetOutcome where
  | failure (msg : String)
  | success (statusCode : Nat) (body : Option Json)

/-- Embedding of `callExternalService` (src/main.go:59-72). The URL is
logged, `http.Get` runs with the given outcome. On a Get error the error
is printed, but then `defer resp.Body.Close()` evaluates `resp.Body` on
the nil response pointer and panics: the second component is `none`, no
body is returned. On a non-error response the body is read and returned
as is; the status code is never inspected. -/
def callExternalService (apiKey : String) (outcome : GetOutcome)
    (serviceName param : String) : List Event × Option (Option Json) :=
  let evs := [Event.infoLog ("About to call: " ++ geoServiceUrl apiKey serviceName param)]
  match outcome with
  | GetOutcome.failure msg => (evs ++ [Event.errLog msg], none)
  | GetOutcome.success _ body => (evs, some body)

/-- Fixed deadline of the shutdown context created in `main`
(src/main.go:111): `context.WithTimeout(context.Background(),
30*time.Second)`, in seconds. -/
def shutdownTimeoutSeconds : Nat := 30

/-- Parameters of one process run: whether `ListenAndServe` failed to
bind (and with which error), the time in seconds at which a termination
signal is observed (`none` when no signal ever arrives), and how many
seconds after shutdown starts the in-flight requests would need to
drain completely. -/
structure RunEnv where
  listenError : Option String
  signalAt : Option Nat
  drainSeconds : Nat

/-- Events of the server goroutine (src/main.go:98-104): it logs the
listening address, and when `ListenAndServe` returns an error it only
logs that error; it contains no process-exit effect. -/
def serverGoroutineEvents (env : RunEnv) : List Event :=
  Event.infoLog "Listening on " ::
    match env.listenError with
    | some e => [Event.errLog ("Error on ListenAndServe: " ++ e)]
    | none => []

/-- Lifecycle phases of the controller in `main`: blocked on the signal
channel and serving, draining inside `srv.Shutdown`, stopped. -/
inductive Phase where
  | running
  | draining
  | stopped
deriving DecidableEq

/-- Time at which `srv.Shutdown(ctx)` returns and the process exits
(src/main.go:106-114): `main` blocks on `sig := <-sigChan` until the
signal arrives, then calls Shutdown with the 30 second context. Per the
net/http contract, Shutdown returns when all in-flight requests have
drained or the context deadline expires, whichever is first. `none` when
no signal ever arrives: main stays blocked forever. -/
def stoppedAt (env : RunEnv) : Option Nat :=
  env.signalAt.map (fun s => s + min env.drainSeconds shutdownTimeoutSeconds)

/-- Phase of the lifecycle controller at time `t` seconds. -/
def mainPhase (env : RunEnv) (t : Nat) : Phase :=
  match env.signalAt with
  | none => Phase.running
  | some s =>
      if t < s then Phase.running
      else if t < s + min env.drainSeconds shutdownTimeoutSeconds then Phase.draining
      else Phase.stopped

/-- Whether the process has exited by time `t`: `main` returns right
after `srv.Shutdown` does. -/
def processExited (env : RunEnv) (t : Nat) : Bool :=
  match stoppedAt env with
  | none => false
  | some e => decide (e ≤ t)

/-- Number of `writeHeader` events in a trace. -/
def countWriteHeaders : List Event → Nat
  | [] => 0
  | Event.writeHeader _ :: es => countWriteHeaders es + 1
  | _ :: es => countWriteHeaders es

/-- Concrete payload in the shape of the data/LA.json fixture, used by
the witnesses: one result for Los Angeles and status OK. -/
def mockLA : Option Json :=
  some (Json.obj
    [("results", Json.arr
        [Json.obj
          [("geometry", Json.obj
              [("location", Json.obj
                  [("lat", Json.num (34052235/1000000)),
                   ("lng", Json.num (-118243683/1000000))]),
               ("location_type", Json.str "APPROXIMATE")]),
           ("formatted_address", Json.str "Los Angeles, CA, USA")]]),
     ("status", Json.str "OK")])

/-- First (and only) result of `mockLA`. -/
def mockLAFirst : result :=
  ⟨⟨⟨34052235/1000000, -118243683/1000000⟩, "APPROXIMATE"⟩, "Los Angeles, CA, USA"⟩

theorem committedStatus_unmarshalLog (raw : Option Json) (es : List Event) :
    committedStatus (unmarshalLog raw ++ es) = committedStatus es := by
  unfold unmarshalLog
  split <;> simp [committedStatus]

theorem bodyWrites_unmarshalLog (raw : Option Json) (es : List Event) :
    bodyWrites (unmarshalLog raw ++ es) = bodyWrites es := by
  unfold unmarshalLog
  split <;> simp [bodyWrites]

theorem countLogLines_unmarshalLog (raw : Option Json) (es : List Event) :
    countLogLines (unmarshalLog raw ++ es) = countLogLines es := by
  unfold unmarshalLog
  split <;> simp [countLogLines]

theorem countWriteHeaders_unmarshalLog (raw : Option Json) (es : List Event) :
    countWriteHeaders (unmarshalLog raw ++ es) = countWriteHeaders es := by
  unfold unmarshalLog
  split <;> simp [countWriteHeaders]

theorem GeocodeHandler_cons (raw : Option Json) (r : result) (rest : List result)
    (h : (unmarshal raw).1.Results = r :: rest) :
    GeocodeHandler raw
      = (unmarshalLog raw ++ [Event.writeHeader 200, Event.write (Body.json r.toJson)],
         true) := by
  unfold GeocodeHandler
  rw [h]

theorem GeocodeHandler_nil (raw : Option Json)
    (h : (unmarshal raw).1.Results = []) :
    GeocodeHandler raw = (unmarshalLog raw ++ [Event.writeHeader 200], false) := by
  unfold GeocodeHandler
  rw [h]

theorem app_matched (mock : Option Json) (req : Request) (h : req.route ≠ Route.notFound) :
    app mock req
      = (Event.logLine req.method req.requestURI :: (router mock req).1,
         (router mock req).2) := by
  obtain ⟨m, u, ro⟩ := req
  cases ro with
  | home => rfl
  | geocode a => rfl
  | geoloc la ln => rfl
  | notFound => exact absurd rfl h

theorem countLogLines_router (mock : Option Json) (req : Request) :
    countLogLines (router mock req).1 = 0 := by
  obtain ⟨m, u, ro⟩ := req
  cases ro with
  | home => rfl
  | geocode a =>
      show countLogLines (GeocodeHandler mock).1 = 0
      unfold GeocodeHandler
      split <;> simp [countLogLines_unmarshalLog, countLogLines]
  | geoloc la ln => rfl
  | notFound => rfl

/-- C7: every request matched to the `/` route gets status 200 and a
body equal to the fixed liveness string. -/
theorem home_route_ok (mock : Option Json) (m u : String) :
    app mock ⟨m, u, Route.home⟩
        = ([Event.logLine m u, Event.writeHeader 200, Event.write (Body.text HomeBody)],
           true)
      ∧ committedStatus (app mock ⟨m, u, Route.home⟩).1 = some 200
      ∧ bodyWrites (app mock ⟨m, u, Route.home⟩).1 = [Body.text HomeBody] := by
  refine ⟨rfl, ?_, ?_⟩ <;> rfl

/-- C8: every request matched to `/geoloc/{lat},{lng}` gets status 200
and a plain-text body that contains both captured path values verbatim
(the Sprintf rendering of the vars map). -/
theorem geoloc_route_ok (mock : Option Json) (m u lat lng : String) :
    committedStatus (app mock ⟨m, u, Route.geoloc lat lng⟩).1 = some 200
      ∧ bodyWrites (app mock ⟨m, u, Route.geoloc lat lng⟩).1
          = [Body.text ("map[lat:" ++ lat ++ " lng:" ++ lng ++ "]\n")]
      ∧ ∃ pre mid post, bodyWrites (app mock ⟨m, u, Route.geoloc lat lng⟩).1
          = [Body.text (pre ++ lat ++ mid ++ lng ++ post)] := by
  refine ⟨rfl, rfl, "map[lat:", " lng:", "]\n", rfl⟩

/-- C1: with the fixture payload deserializing to a non-empty results
list, every request matched to `/geocode/{address}` gets status 200 and
a JSON body equal to the serialization of the first result only, and the
whole response (status, body, outcome) does not depend on the address
path value. -/
theorem geocode_route_first_result (mock : Option Json) (r : result) (rest : List result)
    (h : (unmarshal mock).1.Results = r :: rest) :
    (∀ m u a : String,
        committedStatus (app mock ⟨m, u, Route.geocode a⟩).1 = some 200
          ∧ bodyWrites (app mock ⟨m, u, Route.geocode a⟩).1 = [Body.json r.toJson]
          ∧ (app mock ⟨m, u, Route.geocode a⟩).2 = true)
    ∧ (∀ m u a b : String,
        committedStatus (app mock ⟨m, u, Route.geocode a⟩).1
            = committedStatus (app mock ⟨m, u, Route.geocode b⟩).1
          ∧ bodyWrites (app mock ⟨m, u, Route.geocode a⟩).1
              = bodyWrites (app mock ⟨m, u, Route.geocode b⟩).1
          ∧ (app mock ⟨m, u, Route.geocode a⟩).2 = (app mock ⟨m, u, Route.geocode b⟩).2) := by
  have happ : ∀ m u a : String,
      app mock ⟨m, u, Route.geocode a⟩
        = (Event.logLine m u :: (GeocodeHandler mock).1, (GeocodeHandler mock).2) :=
    fun m u a => rfl
  constructor
  · intro m u a
    rw [happ, GeocodeHandler_cons mock r rest h]
    refine ⟨?_, ?_, rfl⟩
    · show committedStatus (Event.logLine m u :: (unmarshalLog mock ++ _)) = some 200
      simp [committedStatus, committedStatus_unmarshalLog]
    · show bodyWrites (Event.logLine m u :: (unmarshalLog mock ++ _)) = _
      simp [bodyWrites, bodyWrites_unmarshalLog]
  · intro m u a b
    rw [happ m u a, happ m u b]
    exact ⟨rfl, rfl, rfl⟩

/-- C2: whenever the payload deserializes to an empty results list — in
particular for unparsable bytes, whose Unmarshal error is only logged
while the zero value is kept — the unchecked index `resp.Results[0]` is
out of bounds: the geocode handler cannot finish normally (its outcome
flag is `false`, the panic branch). -/
theorem geocode_empty_results_oob :
    (unmarshal none).1.Results = []
      ∧ ∀ raw : Option Json,
          (unmarshal raw).1.Results = [] → (GeocodeHandler raw).2 = false := by
  refine ⟨rfl, fun raw h => ?_⟩
  rw [GeocodeHandler_nil raw h]

/-- Witness for C2 at a concrete payload with an empty results array. -/
theorem geocode_empty_results_oob_witness :
    (GeocodeHandler (some (Json.obj
        [("results", Json.arr []), ("status", Json.str "ZERO_RESULTS")]))).2 = false :=
  geocode_empty_results_oob.2 _ rfl

/-- C10: for every payload, the geocode handler trace is some Unmarshal
error logs, then the committed `writeHeader 200`, then the remaining
events, which contain no further header write; hence the committed
status is 200 for every payload, including those on which the handler
later panics at the index, and no later failure can change it. -/
theorem geocode_header_before_index (raw : Option Json) :
    committedStatus (GeocodeHandler raw).1 = some 200
      ∧ ∃ rest, (GeocodeHandler raw).1 = unmarshalLog raw ++ Event.writeHeader 200 :: rest
          ∧ countWriteHeaders rest = 0
          ∧ countWriteHeaders (unmarshalLog raw) = 0 := by
  unfold GeocodeHandler
  split
  · refine ⟨?_, [], rfl, rfl, ?_⟩
    · simp [committedStatus_unmarshalLog, committedStatus]
    · have := countWriteHeaders_unmarshalLog raw []
      simpa [countWriteHeaders] using this
  · rename_i r rest2 hres
    refine ⟨?_, [Event.write (Body.json r.toJson)], rfl, rfl, ?_⟩
    · simp [committedStatus_unmarshalLog, committedStatus]
    · have := countWriteHeaders_unmarshalLog raw []
      simpa [countWriteHeaders] using this

/-- C3: for every request matched to a registered route, the served
application emits exactly one middleware log line, carrying the request
method and URI, and it is emitted before any handler effect. -/
theorem logging_once_before_handler (mock : Option Json) (req : Request)
    (h : req.route ≠ Route.notFound) :
    (app mock req).1 = Event.logLine req.method req.requestURI :: (router mock req).1
      ∧ countLogLines (router mock req).1 = 0
      ∧ countLogLines (app mock req).1 = 1 := by
  have ha := app_matched mock req h
  have hr := countLogLines_router mock req
  refine ⟨by rw [ha], hr, ?_⟩
  rw [ha]
  simp [countLogLines, hr]

/-- Witness for C3 at a concrete request on the home route. -/
theorem logging_once_before_handler_witness :
    countLogLines (app none ⟨"GET", "/", Route.home⟩).1 = 1 :=
  (logging_once_before_handler none ⟨"GET", "/", Route.home⟩
    (fun hc => Route.noConfusion hc)).2.2

/-- Witness for C1 at the concrete fixture payload and two different
address path values. -/
theorem geocode_route_first_result_witness :
    committedStatus (app mockLA ⟨"GET", "/geocode/anything", Route.geocode "anything"⟩).1
        = some 200
      ∧ bodyWrites (app mockLA ⟨"GET", "/geocode/anything", Route.geocode "anything"⟩).1
          = [Body.json mockLAFirst.toJson]
      ∧ bodyWrites (app mockLA ⟨"GET", "/geocode/anything", Route.geocode "anything"⟩).1
          = bodyWrites (app mockLA ⟨"GET", "/geocode/other", Route.geocode "other"⟩).1 := by
  have h := geocode_route_first_result mockLA mockLAFirst [] rfl
  refine ⟨(h.1 "GET" "/geocode/anything" "anything").1,
          (h.1 "GET" "/geocode/anything" "anything").2.1, ?_⟩
  rw [(h.1 "GET" "/geocode/anything" "anything").2.1,
      (h.1 "GET" "/geocode/other" "other").2.1]

/-- C5 (counterexample to the claim as stated): at a concrete upstream
network failure, `callExternalService` returns no body at all — the
deferred `resp.Body.Close()` dereferences the nil response pointer and
the call panics instead of continuing. -/
theorem call_failure_crashes :
    (callExternalService "" (GetOutcome.failure "connection refused")
        serviceParamNameAddress "paris").2 = none := rfl

/-- C5 (amended): upstream responses that arrive — any status code,
non-200 included, and any body, malformed included — are returned as is
with only the URL logged and no distinct error; but when `http.Get`
itself fails, the error is logged and then the call panics on the nil
response, returning nothing. -/
theorem upstream_errors_logged_only (apiKey name param msg : String)
    (status : Nat) (body : Option Json) :
    callExternalService apiKey (GetOutcome.success status body) name param
        = ([Event.infoLog ("About to call: " ++ geoServiceUrl apiKey name param)],
           some body)
      ∧ callExternalService apiKey (GetOutcome.failure msg) name param
        = ([Event.infoLog ("About to call: " ++ geoServiceUrl apiKey name param),
            Event.errLog msg], none) :=
  ⟨rfl, rfl⟩

/-- C4: once a termination signal is observed at time `s`, the shutdown
context deadline is the fixed 30 seconds, the Stopped state (and process
exit) is reached at `s` plus the minimum of the drain time and 30 —
whichever comes first — the controller is draining until then, and from
that moment on the phase stays stopped and the process has exited. -/
theorem shutdown_deadline_30s (le : Option String) (s d : Nat) :
    shutdownTimeoutSeconds = 30
      ∧ stoppedAt ⟨le, some s, d⟩ = some (s + min d 30)
      ∧ (d ≤ 30 → stoppedAt ⟨le, some s, d⟩ = some (s + d))
      ∧ (30 ≤ d → stoppedAt ⟨le, some s, d⟩ = some (s + 30))
      ∧ (∀ t, t < s → mainPhase ⟨le, some s, d⟩ t = Phase.running)
      ∧ (∀ t, s ≤ t → t < s + min d 30 → mainPhase ⟨le, some s, d⟩ t = Phase.draining)
      ∧ (∀ t, s + min d 30 ≤ t →
            mainPhase ⟨le, some s, d⟩ t = Phase.stopped
              ∧ processExited ⟨le, some s, d⟩ t = true) := by
  have hphase : ∀ t : Nat, mainPhase ⟨le, some s, d⟩ t
      = if t < s then Phase.running
        else if t < s + min d 30 then Phase.draining
        else Phase.stopped := fun t => rfl
  have hexit : ∀ t : Nat,
      processExited ⟨le, some s, d⟩ t = decide (s + min d 30 ≤ t) := fun t => rfl
  refine ⟨rfl, rfl, ?_, ?_, ?_, ?_, ?_⟩
  · intro hd
    show some (s + min d 30) = some (s + d)
    rw [Nat.min_eq_left hd]
  · intro hd
    show some (s + min d 30) = some (s + 30)
    rw [Nat.min_eq_right hd]
  · intro t ht
    rw [hphase, if_pos ht]
  · intro t h1 h2
    rw [hphase, if_neg (by omega), if_pos h2]
  · intro t ht
    refine ⟨?_, ?_⟩
    · rw [hphase, if_neg (by omega), if_neg (by omega)]
    · rw [hexit]
      simp only [decide_eq_true_eq]
      exact ht

/-- Witness for C4: with a signal at time 0 and a 45 second drain, the
process stops exactly at the 30 second deadline. -/
theorem shutdown_deadline_30s_witness :
    stoppedAt ⟨none, some 0, 45⟩ = some (0 + 30)
      ∧ mainPhase ⟨none, some 0, 45⟩ 30 = Phase.stopped := by
  have h := shutdown_deadline_30s none 0 45
  exact ⟨h.2.2.2.1 (by decide), (h.2.2.2.2.2.2 30 (by decide)).1⟩

/-- C6: when the listener cannot be established, the server goroutine
only logs the error — it performs no process exit — and with no
termination signal the main flow of control stays blocked in the
running phase forever: the process never exits by itself. -/
theorem listen_error_nonfatal (e : String) (d : Nat) :
    Event.errLog ("Error on ListenAndServe: " ++ e)
        ∈ serverGoroutineEvents ⟨some e, none, d⟩
      ∧ Event.exitProcess ∉ serverGoroutineEvents ⟨some e, none, d⟩
      ∧ stoppedAt ⟨some e, none, d⟩ = none
      ∧ ∀ t, mainPhase ⟨some e, none, d⟩ t = Phase.running
          ∧ processExited ⟨some e, none, d⟩ t = false := by
  refine ⟨?_, ?_, rfl, fun t => ⟨rfl, rfl⟩⟩
  · simp [serverGoroutineEvents]
  · simp [serverGoroutineEvents]

/-- Witness for C6 at a concrete bind error: far in the future the
process is still blocked running and has not exited. -/
theorem listen_error_nonfatal_witness :
    mainPhase ⟨some "listen tcp :5000: bind: address already in use", none, 0⟩ 1000
        = Phase.running :=
  ((listen_error_nonfatal "listen tcp :5000: bind: address already in use" 0).2.2.2
    1000).1

/-- C9: the bind address is read from BIND_ADDRESS with default ":5000"
when unset, and the API key from GOOGLE_API_KEY with default "" when
unset. -/
theorem env_defaults (env : String → Option String) :
    (env "BIND_ADDRESS" = none → bindAddress env = ":5000")
      ∧ (∀ v, env "BIND_ADDRESS" = some v → bindAddress env = v)
      ∧ (env "GOOGLE_API_KEY" = none → googleAPIKey env = "")
      ∧ (∀ v, env "GOOGLE_API_KEY" = some v → googleAPIKey env = v) := by
  refine ⟨?_, ?_, ?_, ?_⟩
  · intro h
    simp [bindAddress, DefaultENV, h]
  · intro v h
    simp [bindAddress, DefaultENV, h]
  · intro h
    simp [googleAPIKey, DefaultENV, h]
  · intro v h
    simp [googleAPIKey, DefaultENV, h]

/-- Witness for C9 at the empty environment and one populated one. -/
theorem env_defaults_witness :
    bindAddress (fun _ => none) = ":5000"
      ∧ googleAPIKey (fun _ => none) = ""
      ∧ bindAddress (fun _ => some ":8080") = ":8080" :=
  ⟨(env_defaults (fun _ => none)).1 rfl,
   (env_defaults (fun _ => none)).2.2.1 rfl,
   (env_defaults (fun _ => some ":8080")).2.1 ":8080" rfl⟩

end GoGeo
